import Mathlib

/-!
Verification of the onera enclave runtime (Rust sources under
src/infra/enclave/src) against its natural-language specification.

The development shallowly embeds the pure content of the relevant Rust
functions: byte strings are `List Nat` (each entry < 256), 32-bit machine
arithmetic is `Nat` arithmetic reduced modulo 2^32, fallible paths return
`Except`/`Option`, and the network effects (HTTP fetches, WebSocket
connects, the backing SSE byte stream) are passed in as explicit oracle
arguments so that every control-flow branch of the source is represented.
-/

namespace Onera

/-! ## SHA-256 (FIPS 180-4), as used via the `sha2` crate

The Rust sources call `Sha256` from the `sha2` crate on byte slices.  We
embed the function itself: words are `Nat` values kept below 2^32 by
explicit reduction. -/

/-- Reduce to a 32-bit word. -/
def w32 (n : Nat) : Nat := n % 4294967296

/-- Right rotation of a 32-bit word. -/
def rotr32 (n x : Nat) : Nat := w32 ((x >>> n) ||| (x <<< (32 - n)))

/-- SHA-256 big sigma 0. -/
def bigSigma0 (x : Nat) : Nat := (rotr32 2 x) ^^^ (rotr32 13 x) ^^^ (rotr32 22 x)

/-- SHA-256 big sigma 1. -/
def bigSigma1 (x : Nat) : Nat := (rotr32 6 x) ^^^ (rotr32 11 x) ^^^ (rotr32 25 x)

/-- SHA-256 small sigma 0. -/
def smallSigma0 (x : Nat) : Nat := (rotr32 7 x) ^^^ (rotr32 18 x) ^^^ (x >>> 3)

/-- SHA-256 small sigma 1. -/
def smallSigma1 (x : Nat) : Nat := (rotr32 17 x) ^^^ (rotr32 19 x) ^^^ (x >>> 10)

/-- SHA-256 choice function; the complement is taken inside 32 bits. -/
def ch32 (x y z : Nat) : Nat := (x &&& y) ^^^ ((x ^^^ 4294967295) &&& z)

/-- SHA-256 majority function. -/
def maj32 (x y z : Nat) : Nat := (x &&& y) ^^^ (x &&& z) ^^^ (y &&& z)

/-- The 64 SHA-256 round constants. -/
def sha256K : List Nat :=
  [1116352408, 1899447441, 3049323471, 3921009573, 961987163, 1508970993,
   2453635748, 2870763221, 3624381080, 310598401, 607225278, 1426881987,
   1925078388, 2162078206, 2614888103, 3248222580, 3835390401, 4022224774,
   264347078, 604807628, 770255983, 1249150122, 1555081692, 1996064986,
   2554220882, 2821834349, 2952996808, 3210313671, 3336571891, 3584528711,
   113926993, 338241895, 666307205, 773529912, 1294757372, 1396182291,
   1695183700, 1986661051, 2177026350, 2456956037, 2730485921, 2820302411,
   3259730800, 3345764771, 3516065817, 3600352804, 4094571909, 275423344,
   430227734, 506948616, 659060556, 883997877, 958139571, 1322822218,
   1537002063, 1747873779, 1955562222, 2024104815, 2227730452, 2361852424,
   2428436474, 2756734187, 3204031479, 3329325298]

/-- The running SHA-256 state: eight 32-bit words. -/
structure Hash8 where
  a : Nat
  b : Nat
  c : Nat
  d : Nat
  e : Nat
  f : Nat
  g : Nat
  hh : Nat
deriving DecidableEq

/-- Initial SHA-256 hash value. -/
def sha256Init : Hash8 :=
  ⟨1779033703, 3144134277, 1013904242, 2773480762,
   1359893119, 2600822924, 528734635, 1541459225⟩

/-- Big-endian 32-bit word from four bytes. -/
def beWord (b0 b1 b2 b3 : Nat) : Nat := ((b0 * 256 + b1) * 256 + b2) * 256 + b3

/-- The sixteen big-endian message words of a 64-byte block. -/
def blockWords : List Nat → List Nat
  | b0 :: b1 :: b2 :: b3 :: rest => beWord b0 b1 b2 b3 :: blockWords rest
  | _ => []

/-- Extend the message schedule; the accumulator holds the words produced
so far in reverse order, so index `i` is word `t - 1 - i`. -/
def extendWords : Nat → List Nat → List Nat
  | 0, rev => rev
  | fuel+1, rev =>
      let wt := w32 (smallSigma1 (rev.getD 1 0) + rev.getD 6 0 +
                     smallSigma0 (rev.getD 14 0) + rev.getD 15 0)
      extendWords fuel (wt :: rev)

/-- One SHA-256 compression round with schedule word `w` and constant `k`. -/
def sha256Round (st : Hash8) (w k : Nat) : Hash8 :=
  let t1 := w32 (st.hh + bigSigma1 st.e + ch32 st.e st.f st.g + k + w)
  let t2 := w32 (bigSigma0 st.a + maj32 st.a st.b st.c)
  ⟨w32 (t1 + t2), st.a, st.b, st.c, w32 (st.d + t1), st.e, st.f, st.g⟩

/-- Componentwise 32-bit addition of two hash states. -/
def addHash8 (x y : Hash8) : Hash8 :=
  ⟨w32 (x.a + y.a), w32 (x.b + y.b), w32 (x.c + y.c), w32 (x.d + y.d),
   w32 (x.e + y.e), w32 (x.f + y.f), w32 (x.g + y.g), w32 (x.hh + y.hh)⟩

/-- Compress one 64-byte block into the running state. -/
def sha256Compress (st : Hash8) (blk : List Nat) : Hash8 :=
  let ws := (extendWords 48 (blockWords blk).reverse).reverse
  let fin := (ws.zip sha256K).foldl (fun s p => sha256Round s p.1 p.2) st
  addHash8 st fin

/-- Big-endian 8-byte encoding of a (length) value. -/
def be64 (n : Nat) : List Nat :=
  [(n >>> 56) % 256, (n >>> 48) % 256, (n >>> 40) % 256, (n >>> 32) % 256,
   (n >>> 24) % 256, (n >>> 16) % 256, (n >>> 8) % 256, n % 256]

/-- SHA-256 padding: a 0x80 byte, zeros to 56 mod 64, then the bit length. -/
def padMessage (ms : List Nat) : List Nat :=
  let l := ms.length
  let k := (64 - (l + 9) % 64) % 64
  ms ++ 128 :: List.replicate k 0 ++ be64 (8 * l)

/-- Split into 64-byte blocks; the fuel is any bound on the block count. -/
def toBlocks : Nat → List Nat → List (List Nat)
  | _, [] => []
  | 0, _ => []
  | fuel+1, l => l.take 64 :: toBlocks fuel (l.drop 64)

/-- Big-endian 4-byte encoding of a 32-bit word. -/
def be32 (n : Nat) : List Nat :=
  [(n >>> 24) % 256, (n >>> 16) % 256, (n >>> 8) % 256, n % 256]

/-- The digest bytes of a final hash state. -/
def digestBytes (st : Hash8) : List Nat :=
  be32 st.a ++ be32 st.b ++ be32 st.c ++ be32 st.d ++
  be32 st.e ++ be32 st.f ++ be32 st.g ++ be32 st.hh

/-- SHA-256 of a byte string. -/
def sha256 (ms : List Nat) : List Nat :=
  let padded := padMessage ms
  digestBytes ((toBlocks padded.length padded).foldl sha256Compress sha256Init)

/-- A SHA-256 digest is always 32 bytes. -/
theorem sha256_length (ms : List Nat) : (sha256 ms).length = 32 := by
  simp [sha256, digestBytes, be32]

/-- UTF-8 encoding of one character (RFC 3629). -/
def utf8Char (c : Char) : List Nat :=
  let n := c.toNat
  if n < 128 then [n]
  else if n < 2048 then [192 + n / 64, 128 + n % 64]
  else if n < 65536 then [224 + n / 4096, 128 + (n / 64) % 64, 128 + n % 64]
  else [240 + n / 262144, 128 + (n / 4096) % 64, 128 + (n / 64) % 64, 128 + n % 64]

/-- UTF-8 bytes of a string, as Rust's `str::as_bytes`. -/
def strBytes (s : String) : List Nat :=
  s.data.foldr (fun c acc => utf8Char c ++ acc) []

/-- The UTF-8 bytes of the three-letter test nonce. -/
theorem strBytes_abc : strBytes "abc" = [97, 98, 99] := by decide

/-- The FIPS 180-4 test vector for the three-byte message abc. -/
theorem sha256_abc : sha256 (strBytes "abc") =
    [0xba, 0x78, 0x16, 0xbf, 0x8f, 0x01, 0xcf, 0xea,
     0x41, 0x41, 0x40, 0xde, 0x5d, 0xae, 0x22, 0x23,
     0xb0, 0x03, 0x61, 0xa3, 0x96, 0x17, 0x7a, 0x9c,
     0xb4, 0x10, 0xff, 0x61, 0xf2, 0x00, 0x15, 0xad] := by decide

/-- The SHA-256 digest of the empty message. -/
theorem sha256_nil : sha256 [] =
    [0xe3, 0xb0, 0xc4, 0x42, 0x98, 0xfc, 0x1c, 0x14,
     0x9a, 0xfb, 0xf4, 0xc8, 0x99, 0x6f, 0xb9, 0x24,
     0x27, 0xae, 0x41, 0xe4, 0x64, 0x9b, 0x93, 0x4c,
     0xa4, 0x95, 0x99, 0x1b, 0x78, 0x52, 0xb8, 0x55] := by decide

/-- Every byte of a big-endian word encoding is below 256. -/
theorem be32_lt (n : Nat) : ∀ b ∈ be32 n, b < 256 := by
  intro b hb
  simp only [be32, List.mem_cons, List.not_mem_nil, or_false] at hb
  rcases hb with h | h | h | h <;> subst h <;> exact Nat.mod_lt _ (by norm_num)

/-- Every SHA-256 digest byte is below 256. -/
theorem sha256_bytes_lt (ms : List Nat) : ∀ b ∈ sha256 ms, b < 256 := by
  intro b hb
  simp only [sha256, digestBytes, List.mem_append] at hb
  rcases hb with ((((((h | h) | h) | h) | h) | h) | h) | h <;> exact be32_lt _ b h

/-! ## Hex and base64 encodings (the `hex` and `base64` crates) -/

/-- Lowercase hex digit character for a value below 16. -/
def hexDigit (n : Nat) : Char :=
  if n < 10 then Char.ofNat (48 + n) else Char.ofNat (87 + n)

/-- Lowercase hex encoding of a byte string, as `hex::encode`. -/
def hexEncode (bs : List Nat) : String :=
  ⟨bs.foldr (fun b acc => hexDigit (b / 16) :: hexDigit (b % 16) :: acc) []⟩

/-- Value of one hex digit character, upper or lower case, as accepted by
the decoder of `hex::decode`. -/
def hexDigitVal (c : Char) : Option Nat :=
  if 48 ≤ c.toNat ∧ c.toNat ≤ 57 then some (c.toNat - 48)
  else if 97 ≤ c.toNat ∧ c.toNat ≤ 102 then some (c.toNat - 87)
  else if 65 ≤ c.toNat ∧ c.toNat ≤ 70 then some (c.toNat - 55)
  else none

/-- Decode an even-length run of hex characters into bytes. -/
def hexDecodeChars : List Char → Option (List Nat)
  | [] => some []
  | c1 :: c2 :: rest => do
      let hi ← hexDigitVal c1
      let lo ← hexDigitVal c2
      let tl ← hexDecodeChars rest
      pure ((16 * hi + lo) :: tl)
  | _ => none

/-- Decode a hex string into bytes, as `hex::decode`. -/
def hexDecode (s : String) : Option (List Nat) := hexDecodeChars s.data

/-- The standard base64 alphabet. -/
def base64Alphabet : List Char :=
  "ABCDEFGHIJKLMNOPQRSTUVWXYZabcdefghijklmnopqrstuvwxyz0123456789+/".data

/-- Standard base64 encoding with padding, three input bytes at a time. -/
def base64EncodeChars : List Nat → List Char
  | [] => []
  | [b0] =>
      [base64Alphabet.getD (b0 / 4) 'A',
       base64Alphabet.getD ((b0 % 4) * 16) 'A', '=', '=']
  | [b0, b1] =>
      [base64Alphabet.getD (b0 / 4) 'A',
       base64Alphabet.getD ((b0 % 4) * 16 + b1 / 16) 'A',
       base64Alphabet.getD ((b1 % 16) * 4) 'A', '=']
  | b0 :: b1 :: b2 :: rest =>
      base64Alphabet.getD (b0 / 4) 'A' ::
      base64Alphabet.getD ((b0 % 4) * 16 + b1 / 16) 'A' ::
      base64Alphabet.getD ((b1 % 16) * 4 + b2 / 64) 'A' ::
      base64Alphabet.getD (b2 % 64) 'A' :: base64EncodeChars rest

/-- Base64 encoding of a byte string, as the `base64` crate's
standard-with-padding engine. -/
def base64Encode (bs : List Nat) : String := ⟨base64EncodeChars bs⟩

/-! ## Byte-buffer writes

Rust's `buffer[a..b].copy_from_slice(v)` on a `Vec<u8>` is embedded as a
functional splice of `v` at offset `a`. -/

/-- Write the bytes `v` into `l` starting at offset `off`. -/
def setSlice (l : List Nat) (off : Nat) (v : List Nat) : List Nat :=
  l.take off ++ v ++ l.drop (off + v.length)

/-- Splicing at the exact boundary of a prefix replaces the equal-length
middle section. -/
theorem setSlice_split (pre mid post v : List Nat) (hlen : v.length = mid.length) :
    setSlice (pre ++ (mid ++ post)) pre.length v = pre ++ (v ++ post) := by
  unfold setSlice
  have h1 : (pre ++ (mid ++ post)).take pre.length = pre := List.take_left pre (mid ++ post)
  have h2 : (pre ++ (mid ++ post)).drop (pre.length + v.length) = post := by
    have hl : pre.length + v.length = (pre ++ mid).length := by
      simp [hlen]
    rw [hl, show pre ++ (mid ++ post) = (pre ++ mid) ++ post from
      (List.append_assoc pre mid post).symm]
    exact List.drop_left (pre ++ mid) post
  rw [h1, h2, List.append_assoc]

/-- Splicing an equal-length value at offset zero replaces the front. -/
theorem setSlice_front (mid post v : List Nat) (hlen : v.length = mid.length) :
    setSlice (mid ++ post) 0 v = v ++ post := by
  have h := setSlice_split [] mid post v hlen
  simpa using h

/-- A splice that stays inside the front part of an append acts on the
front part alone. -/
theorem setSlice_within (l1 l2 v : List Nat) (off : Nat)
    (hoff : off + v.length ≤ l1.length) :
    setSlice (l1 ++ l2) off v = setSlice l1 off v ++ l2 := by
  unfold setSlice
  rw [List.take_append_eq_append_take, List.drop_append_eq_append_drop,
    Nat.sub_eq_zero_of_le (le_trans (Nat.le_add_right off v.length) hoff),
    Nat.sub_eq_zero_of_le hoff]
  simp [List.append_assoc]

/-! ## Attestation service (src/infra/enclave/src/attestation.rs)

The HTTP calls out of the service (the Azure IMDS probe at startup and the
IMDS attestation fetch per request) are external effects; they enter the
embedding as the `is_azure` flag fixed at construction and an
`Except`-valued IMDS outcome per call. -/

/-- SEV-SNP attestation report size, `SEV_SNP_REPORT_SIZE` in the source. -/
def SEV_SNP_REPORT_SIZE : Nat := 1184

/-- Attestation service state: the bound public key, its SHA-256 hash, and
the startup IMDS detection result. -/
structure AttestationService where
  public_key : List Nat
  public_key_hash : List Nat
  is_azure : Bool

/-- Constructor `AttestationService::new`: hashes the public key once; the
IMDS availability probe outcome is the `isAzure` argument. -/
def AttestationService.new (publicKey : List Nat) (isAzure : Bool) : AttestationService :=
  { public_key := publicKey
    public_key_hash := sha256 publicKey
    is_azure := isAzure }

/-- The deserialized Azure IMDS attested-document response. -/
structure AzureImdsResponse where
  encoding : String
  signature : String

/-- The JSON attestation response `AttestationQuote`. -/
structure AttestationQuote where
  quote : String
  public_key : String
  public_key_hash : String
  report_data : String
  attestation_type : String
  azure_encoding : Option String

/-- Method `get_azure_attestation`: the whole IMDS round trip (request
error, non-2xx status, JSON parse failure) is the `Except` argument; the
nonce argument is ignored as in the source. -/
def AttestationService.get_azure_attestation (s : AttestationService)
    (imds : Except String AzureImdsResponse) (_nonce : Option (List Nat)) :
    Except String AttestationQuote :=
  match imds with
  | .error e => .error e
  | .ok r => .ok
      { quote := r.signature
        public_key := base64Encode s.public_key
        public_key_hash := hexEncode s.public_key_hash
        report_data := hexEncode s.public_key_hash
        attestation_type := "azure-imds"
        azure_encoding := some r.encoding }

/-- The report_data construction inside `generate_mock_quote` (first 32
bytes the public-key hash, last 32 the nonce hash or zero), factored out so
theorems can speak about the raw 64 bytes before hex encoding. -/
def AttestationService.build_mock_report_data (s : AttestationService)
    (nonce : Option (List Nat)) : List Nat :=
  let rd := List.replicate 64 0
  let rd := setSlice rd 0 s.public_key_hash
  match nonce with
  | some n => setSlice rd 32 (sha256 n)
  | none => rd

/-- Method `generate_mock_sev_snp_quote`: a 1184-byte zero buffer with the
fields the source writes spliced in at their offsets. -/
def AttestationService.generate_mock_sev_snp_quote (reportData : List Nat) : List Nat :=
  let q := List.replicate SEV_SNP_REPORT_SIZE 0
  let q := setSlice q 0 [0x02, 0x00, 0x00, 0x00]
  let q := setSlice q 4 [0x00, 0x00, 0x00, 0x00]
  let q := setSlice q 8 [0x30, 0x00, 0x00, 0x00, 0x01, 0x00, 0x00, 0x00]
  let q := setSlice q 16 (strBytes "onera-mock-fam" ++ [0x00, 0x00])
  let q := setSlice q 32 (strBytes "onera-mock-img" ++ [0x00, 0x00])
  let q := setSlice q 48 [0x00, 0x00, 0x00, 0x00]
  let q := setSlice q 52 [0x01, 0x00, 0x00, 0x00]
  let q := setSlice q 56 [0x03, 0x00, 0x31, 0x00, 0x14, 0x00, 0x00, 0x00]
  let q := setSlice q 64 [0x03, 0x00, 0x00, 0x00, 0x00, 0x00, 0x00, 0x00]
  let q := setSlice q 80 reportData
  let q := setSlice q 144 (sha256 (strBytes "onera-enclave-mock-measurement"))
  let q := setSlice q 672 (sha256 (strBytes "mock-signature"))
  q

/-- Method `generate_mock_quote`. -/
def AttestationService.generate_mock_quote (s : AttestationService)
    (nonce : Option (List Nat)) : AttestationQuote :=
  let reportData := s.build_mock_report_data nonce
  let quote := AttestationService.generate_mock_sev_snp_quote reportData
  { quote := base64Encode quote
    public_key := base64Encode s.public_key
    public_key_hash := hexEncode s.public_key_hash
    report_data := hexEncode reportData
    attestation_type := "mock-sev-snp"
    azure_encoding := none }

/-- Method `generate_quote`: try IMDS when on Azure, fall back to mock. -/
def AttestationService.generate_quote (s : AttestationService)
    (imds : Except String AzureImdsResponse) (nonce : Option (List Nat)) :
    AttestationQuote :=
  if s.is_azure then
    match s.get_azure_attestation imds nonce with
    | .ok q => q
    | .error _ => s.generate_mock_quote nonce
  else s.generate_mock_quote nonce

/-- Request body of POST /attestation. -/
structure AttestationRequest where
  nonce : Option String

/-- Handler `get_attestation`: a quote with no nonce. -/
def get_attestation (s : AttestationService)
    (imds : Except String AzureImdsResponse) : AttestationQuote :=
  s.generate_quote imds none

/-- Handler `post_attestation`: the optional nonce string enters as its
UTF-8 bytes. -/
def post_attestation (s : AttestationService)
    (imds : Except String AzureImdsResponse) (request : AttestationRequest) :
    AttestationQuote :=
  s.generate_quote imds (request.nonce.map strBytes)

/-- An HTTP method of the enclave's axum route table. -/
inductive HttpMethod
  | get
  | post
deriving DecidableEq

/-- The HTTP route table built in `main`: each axum `.route` call with the
method of its handler wrapper. -/
def httpRoutes : List (String × HttpMethod) :=
  [("/attestation", HttpMethod.get), ("/models", HttpMethod.get),
   ("/health", HttpMethod.get)]

/-! ## Normal forms of the mock attestation buffers -/

/-- The mock report_data in closed form: hash of the public key, then the
nonce hash or zeros. -/
theorem build_mock_report_data_eq (s : AttestationService)
    (nonce : Option (List Nat)) (h : s.public_key_hash.length = 32) :
    s.build_mock_report_data nonce =
      s.public_key_hash ++
        (match nonce with
         | some n => sha256 n
         | none => List.replicate 32 0) := by
  unfold AttestationService.build_mock_report_data
  have h64 : (List.replicate 64 0 : List Nat)
      = List.replicate 32 0 ++ List.replicate 32 0 := by decide
  have h1 : setSlice (List.replicate 64 0) 0 s.public_key_hash
      = s.public_key_hash ++ List.replicate 32 0 := by
    rw [h64]
    exact setSlice_front _ _ _ (by simp [h])
  cases nonce with
  | none => simpa using h1
  | some n =>
      have h2 : setSlice (s.public_key_hash ++ List.replicate 32 0) 32 (sha256 n)
          = s.public_key_hash ++ sha256 n := by
        have hs := setSlice_split s.public_key_hash (List.replicate 32 0) []
          (sha256 n) (by simp [sha256_length])
        simpa [h] using hs
      simp only [h1, h2]

/-- The first 80 bytes `generate_mock_sev_snp_quote` produces ahead of
report_data: version, guest SVN, policy, family ID, image ID, VMPL,
signature algorithm, platform version, platform info, and eight zero bytes
(offsets 72..80) the source never writes. -/
def sevHeader80 : List Nat :=
  [0x02, 0x00, 0x00, 0x00,
   0x00, 0x00, 0x00, 0x00,
   0x30, 0x00, 0x00, 0x00, 0x01, 0x00, 0x00, 0x00]
  ++ (strBytes "onera-mock-fam" ++ [0x00, 0x00])
  ++ (strBytes "onera-mock-img" ++ [0x00, 0x00])
  ++ [0x00, 0x00, 0x00, 0x00,
      0x01, 0x00, 0x00, 0x00,
      0x03, 0x00, 0x31, 0x00, 0x14, 0x00, 0x00, 0x00,
      0x03, 0x00, 0x00, 0x00, 0x00, 0x00, 0x00, 0x00,
      0x00, 0x00, 0x00, 0x00, 0x00, 0x00, 0x00, 0x00]

set_option maxRecDepth 2000 in
/-- The mock SEV-SNP quote in closed form: the 80 header bytes, the 64
report_data bytes, the measurement hash, 496 zero bytes (offsets 176..672,
covering the report-id and chip-id fields, which the source never writes),
the signature hash, and 480 trailing zero bytes. -/
theorem generate_mock_sev_snp_quote_eq (rd : List Nat) (h : rd.length = 64) :
    AttestationService.generate_mock_sev_snp_quote rd =
      sevHeader80 ++ rd ++ sha256 (strBytes "onera-enclave-mock-measurement")
        ++ List.replicate 496 0 ++ sha256 (strBytes "mock-signature")
        ++ List.replicate 480 0 := by
  have hQ9 :
      setSlice
        (setSlice
          (setSlice
            (setSlice
              (setSlice
                (setSlice
                  (setSlice
                    (setSlice
                      (setSlice (List.replicate SEV_SNP_REPORT_SIZE 0)
                        0 [0x02, 0x00, 0x00, 0x00])
                      4 [0x00, 0x00, 0x00, 0x00])
                    8 [0x30, 0x00, 0x00, 0x00, 0x01, 0x00, 0x00, 0x00])
                  16 (strBytes "onera-mock-fam" ++ [0x00, 0x00]))
                32 (strBytes "onera-mock-img" ++ [0x00, 0x00]))
              48 [0x00, 0x00, 0x00, 0x00])
            52 [0x01, 0x00, 0x00, 0x00])
          56 [0x03, 0x00, 0x31, 0x00, 0x14, 0x00, 0x00, 0x00])
        64 [0x03, 0x00, 0x00, 0x00, 0x00, 0x00, 0x00, 0x00]
      = sevHeader80 ++ (List.replicate 64 0 ++ List.replicate 1040 0) := by
    rw [show List.replicate SEV_SNP_REPORT_SIZE (0 : Nat)
        = List.replicate 80 0 ++ List.replicate 1104 0 by
      rw [show SEV_SNP_REPORT_SIZE = 80 + 1104 from rfl, List.replicate_add]]
    rw [show (List.replicate 1104 (0 : Nat))
        = List.replicate 64 0 ++ List.replicate 1040 0 by
      rw [show (1104 : Nat) = 64 + 1040 from rfl, List.replicate_add]]
    rw [show List.replicate 80 (0 : Nat)
          ++ (List.replicate 64 0 ++ List.replicate 1040 0)
        = (List.replicate 80 0 ++ List.replicate 64 0) ++ List.replicate 1040 0 by
      simp [List.append_assoc]]
    simp (disch := decide) only [setSlice_within]
    rw [show setSlice
        (setSlice
          (setSlice
            (setSlice
              (setSlice
                (setSlice
                  (setSlice
                    (setSlice
                      (setSlice (List.replicate 80 0)
                        0 [0x02, 0x00, 0x00, 0x00])
                      4 [0x00, 0x00, 0x00, 0x00])
                    8 [0x30, 0x00, 0x00, 0x00, 0x01, 0x00, 0x00, 0x00])
                  16 (strBytes "onera-mock-fam" ++ [0x00, 0x00]))
                32 (strBytes "onera-mock-img" ++ [0x00, 0x00]))
              48 [0x00, 0x00, 0x00, 0x00])
            52 [0x01, 0x00, 0x00, 0x00])
          56 [0x03, 0x00, 0x31, 0x00, 0x14, 0x00, 0x00, 0x00])
        64 [0x03, 0x00, 0x00, 0x00, 0x00, 0x00, 0x00, 0x00]
      = sevHeader80 by decide]
    simp [List.append_assoc]
  have h80 : sevHeader80.length = 80 := by decide
  have hmeas : (sha256 (strBytes "onera-enclave-mock-measurement")).length = 32 :=
    sha256_length _
  have hsig : (sha256 (strBytes "mock-signature")).length = 32 := sha256_length _
  show setSlice (setSlice (setSlice _ 80 rd)
      144 (sha256 (strBytes "onera-enclave-mock-measurement")))
      672 (sha256 (strBytes "mock-signature")) = _
  rw [hQ9]
  have s10 : setSlice (sevHeader80 ++ (List.replicate 64 0 ++ List.replicate 1040 0))
      80 rd = sevHeader80 ++ (rd ++ List.replicate 1040 0) := by
    have hs := setSlice_split sevHeader80 (List.replicate 64 0)
      (List.replicate 1040 0) rd (by simp [h])
    rwa [h80] at hs
  rw [s10]
  have e1 : sevHeader80 ++ (rd ++ List.replicate 1040 0)
      = (sevHeader80 ++ rd) ++ (List.replicate 32 0 ++ List.replicate 1008 0) := by
    rw [show (1040 : Nat) = 32 + 1008 from rfl, List.replicate_add]
    simp [List.append_assoc]
  rw [e1]
  have s11 : setSlice ((sevHeader80 ++ rd) ++ (List.replicate 32 0 ++ List.replicate 1008 0))
      144 (sha256 (strBytes "onera-enclave-mock-measurement"))
      = (sevHeader80 ++ rd) ++
          (sha256 (strBytes "onera-enclave-mock-measurement") ++ List.replicate 1008 0) := by
    have hs := setSlice_split (sevHeader80 ++ rd) (List.replicate 32 0)
      (List.replicate 1008 0) (sha256 (strBytes "onera-enclave-mock-measurement"))
      (by simp [hmeas])
    rwa [show (sevHeader80 ++ rd).length = 144 by simp [h80, h]] at hs
  rw [s11]
  have e2 : (sevHeader80 ++ rd) ++
        (sha256 (strBytes "onera-enclave-mock-measurement") ++ List.replicate 1008 0)
      = (((sevHeader80 ++ rd) ++ sha256 (strBytes "onera-enclave-mock-measurement"))
          ++ List.replicate 496 0) ++ (List.replicate 32 0 ++ List.replicate 480 0) := by
    rw [show (1008 : Nat) = 496 + (32 + 480) from rfl, List.replicate_add,
      List.replicate_add]
    simp [List.append_assoc]
  rw [e2]
  have s12 : setSlice ((((sevHeader80 ++ rd)
        ++ sha256 (strBytes "onera-enclave-mock-measurement")) ++ List.replicate 496 0)
        ++ (List.replicate 32 0 ++ List.replicate 480 0))
      672 (sha256 (strBytes "mock-signature"))
      = (((sevHeader80 ++ rd) ++ sha256 (strBytes "onera-enclave-mock-measurement"))
          ++ List.replicate 496 0) ++ (sha256 (strBytes "mock-signature")
          ++ List.replicate 480 0) := by
    have hs := setSlice_split (((sevHeader80 ++ rd)
        ++ sha256 (strBytes "onera-enclave-mock-measurement")) ++ List.replicate 496 0)
      (List.replicate 32 0) (List.replicate 480 0)
      (sha256 (strBytes "mock-signature")) (by simp [hsig])
    have hlen : (sevHeader80 ++ rd ++ sha256 (strBytes "onera-enclave-mock-measurement")
        ++ List.replicate 496 0).length = 672 := by
      simp [h80, h, hmeas]
    rwa [hlen] at hs
  rw [s12]
  simp [List.append_assoc]

set_option maxRecDepth 2000 in
/-- The header of the mock quote has 80 bytes. -/
theorem sevHeader80_length : sevHeader80.length = 80 := by decide

/-- A hex digit character is a lowercase hex character. -/
theorem hexDigit_lower (n : Nat) (h : n < 16) :
    (48 ≤ (hexDigit n).toNat ∧ (hexDigit n).toNat ≤ 57) ∨
      (97 ≤ (hexDigit n).toNat ∧ (hexDigit n).toNat ≤ 102) := by
  interval_cases n <;> decide

/-- Hex encoding of bytes yields only lowercase hex characters. -/
theorem hexEncode_lower (bs : List Nat) (hb : ∀ b ∈ bs, b < 256) :
    ∀ c ∈ (hexEncode bs).data,
      (48 ≤ c.toNat ∧ c.toNat ≤ 57) ∨ (97 ≤ c.toNat ∧ c.toNat ≤ 102) := by
  induction bs with
  | nil => intro c hc; simp [hexEncode] at hc
  | cons b tl ih =>
      intro c hc
      have hb0 : b < 256 := hb b (by simp)
      have htl : ∀ x ∈ tl, x < 256 := fun x hx => hb x (by simp [hx])
      simp only [hexEncode, List.foldr_cons, List.mem_cons] at hc
      rcases hc with rfl | rfl | hrest
      · exact hexDigit_lower _ (by omega)
      · exact hexDigit_lower _ (Nat.mod_lt _ (by norm_num))
      · exact ih htl c (by simpa [hexEncode] using hrest)

/-- C1: every attestation response the service emits (IMDS success, IMDS
failure falling back to mock, or mock directly, with or without a nonce)
carries the lowercase hex SHA-256 of the raw public key the service was
constructed with in its public_key_hash field. -/
theorem generate_quote_public_key_hash (pk : List Nat) (_hpk : pk.length = 32)
    (isAzure : Bool) (imds : Except String AzureImdsResponse)
    (nonce : Option (List Nat)) :
    ((AttestationService.new pk isAzure).generate_quote imds nonce).public_key_hash
        = hexEncode (sha256 pk) ∧
    ∀ c ∈ (((AttestationService.new pk isAzure).generate_quote imds
        nonce).public_key_hash).data,
      (48 ≤ c.toNat ∧ c.toNat ≤ 57) ∨ (97 ≤ c.toNat ∧ c.toNat ≤ 102) := by
  have hq : ((AttestationService.new pk isAzure).generate_quote imds
      nonce).public_key_hash = hexEncode (sha256 pk) := by
    unfold AttestationService.generate_quote AttestationService.get_azure_attestation
      AttestationService.generate_mock_quote AttestationService.new
    cases isAzure <;> cases imds <;> simp
  exact ⟨hq, by rw [hq]; exact hexEncode_lower _ (sha256_bytes_lt pk)⟩

/-- Witness for C1 at a concrete 32-byte key, with the IMDS call failing
and no nonce. -/
theorem generate_quote_public_key_hash_witness :
    (List.replicate 32 0 : List Nat).length = 32 ∧
    ((AttestationService.new (List.replicate 32 0) true).generate_quote
        (Except.error "IMDS unavailable") none).public_key_hash
      = hexEncode (sha256 (List.replicate 32 0)) :=
  ⟨by simp,
   (generate_quote_public_key_hash (List.replicate 32 0) (by simp) true
     (Except.error "IMDS unavailable") none).1⟩

/-- C6: the mock report_data is 64 bytes, its first 32 bytes are the
SHA-256 of the raw public key, its last 32 bytes are the nonce hash when a
nonce is supplied and zero otherwise, an empty nonce hashes the empty
string, and the emitted mock quote hex-encodes exactly this buffer. -/
theorem mock_report_data_shape (pk : List Nat) (isAzure : Bool)
    (nonce : Option (List Nat)) :
    ((AttestationService.new pk isAzure).build_mock_report_data nonce).length = 64 ∧
    ((AttestationService.new pk isAzure).build_mock_report_data nonce).take 32
      = sha256 pk ∧
    ((AttestationService.new pk isAzure).build_mock_report_data nonce).drop 32
      = (match nonce with
         | some n => sha256 n
         | none => List.replicate 32 0) ∧
    ((AttestationService.new pk isAzure).build_mock_report_data (some [])).drop 32
      = sha256 [] ∧
    ((AttestationService.new pk isAzure).generate_mock_quote nonce).report_data
      = hexEncode ((AttestationService.new pk isAzure).build_mock_report_data nonce) := by
  have hh : (AttestationService.new pk isAzure).public_key_hash = sha256 pk := rfl
  have h32 : ((AttestationService.new pk isAzure).public_key_hash).length = 32 := by
    rw [hh]; exact sha256_length pk
  have he := build_mock_report_data_eq (AttestationService.new pk isAzure) nonce h32
  rw [hh] at he
  have htail : (match nonce with
      | some n => sha256 n
      | none => (List.replicate 32 0 : List Nat)).length = 32 := by
    cases nonce <;> simp [sha256_length]
  refine ⟨?_, ?_, ?_, ?_, rfl⟩
  · rw [he, List.length_append, sha256_length, htail]
  · rw [he, show (32 : Nat) = (sha256 pk).length from (sha256_length pk).symm]
    exact List.take_left _ _
  · rw [he, show (32 : Nat) = (sha256 pk).length from (sha256_length pk).symm]
    exact List.drop_left _ _
  · have he2 := build_mock_report_data_eq (AttestationService.new pk isAzure)
      (some []) h32
    rw [hh] at he2
    rw [he2, show (32 : Nat) = (sha256 pk).length from (sha256_length pk).symm]
    exact List.drop_left _ _

/-- C3 (amended): the mock SEV-SNP quote is 1184 bytes laid out as the 80
header bytes (version, guest SVN, policy, family ID, image ID, VMPL,
signature algorithm, platform version, and a nonzero platform-info field
at offset 64), report_data at 80, the measurement hash at 144, zeros over
176..672 (so the report-id and chip-id fields of the claim are zero, not
written), the signature hash at 672, and zeros to the end. -/
theorem mock_sev_snp_quote_layout (rd : List Nat) (h : rd.length = 64) :
    AttestationService.generate_mock_sev_snp_quote rd =
      sevHeader80 ++ rd ++ sha256 (strBytes "onera-enclave-mock-measurement")
        ++ List.replicate 496 0 ++ sha256 (strBytes "mock-signature")
        ++ List.replicate 480 0 ∧
    (AttestationService.generate_mock_sev_snp_quote rd).length = 1184 := by
  have hq := generate_mock_sev_snp_quote_eq rd h
  refine ⟨hq, ?_⟩
  rw [hq]
  simp only [List.length_append, sevHeader80_length, sha256_length,
    List.length_replicate, h]

/-- Witness for C3 (amended) at the all-zero report_data. -/
theorem mock_sev_snp_quote_layout_witness :
    (List.replicate 64 (0 : Nat)).length = 64 ∧
    (AttestationService.generate_mock_sev_snp_quote (List.replicate 64 0) =
      sevHeader80 ++ List.replicate 64 0
        ++ sha256 (strBytes "onera-enclave-mock-measurement")
        ++ List.replicate 496 0 ++ sha256 (strBytes "mock-signature")
        ++ List.replicate 480 0 ∧
    (AttestationService.generate_mock_sev_snp_quote
        (List.replicate 64 0)).length = 1184) :=
  ⟨by simp, mock_sev_snp_quote_layout (List.replicate 64 0) (by simp)⟩

set_option maxRecDepth 2000 in
/-- C3 counterexample: at the all-zero report_data the 64 bytes at offset
400 are zero rather than 0x4D, the 32 bytes at offset 320 are zero rather
than a hash, and the 8 bytes at offset 64 are the nonzero platform-info
field the claim's table does not list. -/
theorem mock_sev_snp_quote_cex :
    ((AttestationService.generate_mock_sev_snp_quote
        (List.replicate 64 0)).drop 400).take 64 ≠ List.replicate 64 0x4D ∧
    ((AttestationService.generate_mock_sev_snp_quote
        (List.replicate 64 0)).drop 320).take 32 = List.replicate 32 0 ∧
    ((AttestationService.generate_mock_sev_snp_quote
        (List.replicate 64 0)).drop 64).take 8
      = [0x03, 0x00, 0x00, 0x00, 0x00, 0x00, 0x00, 0x00] := by
  have h64 : (List.replicate 64 (0 : Nat)).length = 64 := by simp
  have hcomm : ∀ k : Nat, k + 176 = 176 + k := fun k => Nat.add_comm k 176
  have hq := generate_mock_sev_snp_quote_eq (List.replicate 64 0) h64
  have hassoc : AttestationService.generate_mock_sev_snp_quote (List.replicate 64 0)
      = (sevHeader80 ++ List.replicate 64 0
          ++ sha256 (strBytes "onera-enclave-mock-measurement"))
        ++ (List.replicate 496 0 ++ (sha256 (strBytes "mock-signature")
          ++ List.replicate 480 0)) := by
    rw [hq]; simp [List.append_assoc]
  have hlen176 : (sevHeader80 ++ List.replicate 64 0
      ++ sha256 (strBytes "onera-enclave-mock-measurement")).length = 176 := by
    simp only [List.length_append, sevHeader80_length, sha256_length,
      List.length_replicate]
  have hdrop176 : (AttestationService.generate_mock_sev_snp_quote
        (List.replicate 64 0)).drop 176
      = List.replicate 496 0 ++ (sha256 (strBytes "mock-signature")
          ++ List.replicate 480 0) := by
    rw [hassoc, ← hlen176]
    exact List.drop_left _ _
  have hslice : ∀ k n : Nat, k + n ≤ 496 →
      ((AttestationService.generate_mock_sev_snp_quote
        (List.replicate 64 0)).drop (k + 176)).take n = List.replicate n 0 := by
    intro k n hkn
    rw [hcomm k, ← List.drop_drop, hdrop176, List.drop_append_eq_append_drop,
      List.drop_replicate, List.length_replicate,
      Nat.sub_eq_zero_of_le (show k ≤ 496 by omega), List.drop_zero,
      List.take_append_eq_append_take, List.take_replicate,
      List.length_replicate,
      Nat.sub_eq_zero_of_le (show n ≤ 496 - k by omega),
      List.take_zero, List.append_nil,
      Nat.min_eq_left (show n ≤ 496 - k by omega)]
  refine ⟨?_, ?_, ?_⟩
  · have h1 := hslice 224 64 (by omega)
    norm_num at h1
    rw [h1]
    decide
  · have h2 := hslice 144 32 (by omega)
    norm_num at h2
    rw [h2]
  · have hassoc2 : AttestationService.generate_mock_sev_snp_quote (List.replicate 64 0)
        = sevHeader80 ++ (List.replicate 64 0
            ++ (sha256 (strBytes "onera-enclave-mock-measurement")
            ++ (List.replicate 496 0 ++ (sha256 (strBytes "mock-signature")
            ++ List.replicate 480 0)))) := by
      rw [hq]; simp [List.append_assoc]
    rw [hassoc2, List.drop_append_eq_append_drop,
      Nat.sub_eq_zero_of_le (by rw [sevHeader80_length]; omega), List.drop_zero,
      List.take_append_eq_append_take,
      Nat.sub_eq_zero_of_le (by decide), List.take_zero, List.append_nil]
    decide

/-- C5: the axum route table of main registers only GET for /attestation,
so a POST /attestation request is never dispatched to the fully
implemented post_attestation handler; the handler itself, were it routed,
would put SHA-256 of the UTF-8 bytes of nonce "abc" — the ba78..15ad
digest — into report_data bytes 32..64 under the mock provider. -/
theorem post_attestation_unrouted :
    ("/attestation", HttpMethod.post) ∉ httpRoutes ∧
    sha256 (strBytes "abc") =
      [0xba, 0x78, 0x16, 0xbf, 0x8f, 0x01, 0xcf, 0xea,
       0x41, 0x41, 0x40, 0xde, 0x5d, 0xae, 0x22, 0x23,
       0xb0, 0x03, 0x61, 0xa3, 0x96, 0x17, 0x7a, 0x9c,
       0xb4, 0x10, 0xff, 0x61, 0xf2, 0x00, 0x15, 0xad] ∧
    ∀ (pk : List Nat) (imds : Except String AzureImdsResponse),
      (post_attestation (AttestationService.new pk false) imds
          { nonce := some "abc" }).report_data
        = hexEncode (sha256 pk ++ sha256 (strBytes "abc")) := by
  refine ⟨by decide, by decide, ?_⟩
  intro pk imds
  have h32 : ((AttestationService.new pk false).public_key_hash).length = 32 :=
    sha256_length pk
  have he := build_mock_report_data_eq (AttestationService.new pk false)
    (some (strBytes "abc")) h32
  show hexEncode ((AttestationService.new pk false).build_mock_report_data
      (some (strBytes "abc"))) = _
  rw [he]
  rfl

/-! ## Inner request and response JSON (src/infra/enclave/src/noise.rs) -/

/-- One chat message of the inner request. -/
structure ChatMessage where
  role : String
  content : String
deriving DecidableEq

/-- The decrypted client request.  The f32 temperature is carried opaquely
(it is only serialized onward, never computed with), so it appears as a
bare numeral field. -/
structure InferenceRequest where
  model : Option String
  messages : List ChatMessage
  stream : Bool
  temperature : Option Nat
  max_tokens : Option Nat
deriving DecidableEq

/-- The inner response sent back to the client before encryption. -/
structure InferenceResponse where
  content : String
  finish_reason : Option String
  error : Option String
deriving DecidableEq

/-- Streaming chunk tags of src/infra/enclave/src/inference.rs: text-delta,
finish, error. -/
inductive StreamChunk
  | delta (text : String)
  | finish (finish_reason : String)
  | error (message : String)
deriving DecidableEq

/-! ## Router (src/infra/enclave/src/router.rs)

The WebSocket, Noise handshake and HTTP fetch effects inside the router
enter the embedding as oracle arguments; the pool and key cache are
explicit state.  A connection-pool entry is represented by its server id:
the socket and cipher state inside an entry play no part in the pool and
cache bookkeeping these claims are about. -/

/-- A model server entry of the router configuration. -/
structure ModelServerConfig where
  id : String
  ws_endpoint : String
  attestation_endpoint : Option String
  public_key : Option String
  models : List String

/-- The router configuration. -/
structure RouterConfig where
  servers : List ModelServerConfig

/-- Association-list update with the overwrite semantics of
HashMap::insert. -/
def mapInsert (m : List (String × String)) (k v : String) : List (String × String) :=
  match m with
  | [] => [(k, v)]
  | (k0, v0) :: rest => if k0 = k then (k, v) :: rest else (k0, v0) :: mapInsert rest k v

/-- Association-list lookup, the semantics of HashMap::get. -/
def mapLookup (m : List (String × String)) (k : String) : Option String :=
  match m with
  | [] => none
  | (k0, v0) :: rest => if k0 = k then some v0 else mapLookup rest k

/-- The model-to-server map Router::new builds at config load: every
non-wildcard model name of every server maps to that server's id; the
wildcard is not indexed. -/
def build_model_to_server (servers : List ModelServerConfig) : List (String × String) :=
  servers.foldl
    (fun m s => s.models.foldl
      (fun m model => if model = "*" then m else mapInsert m model s.id) m)
    []

/-- Method Router::get_server_for_model: exact map entry, else the first
server listing the wildcard, else the first server, else none. -/
def get_server_for_model (config : RouterConfig) (m2s : List (String × String))
    (model_id : String) : Option String :=
  match mapLookup m2s model_id with
  | some server_id => some server_id
  | none =>
    match config.servers.find? (fun s => s.models.contains "*") with
    | some s => some s.id
    | none => config.servers.head?.map (fun s => s.id)

/-- C7: model resolution follows exact-entry, then first wildcard server,
then first server; it fails exactly on an empty server list; and it is a
pure function of the configuration, so repeated resolutions agree. -/
theorem model_resolution_order (config : RouterConfig) (model : String) :
    (∀ sid, mapLookup (build_model_to_server config.servers) model = some sid →
      get_server_for_model config (build_model_to_server config.servers) model
        = some sid) ∧
    (mapLookup (build_model_to_server config.servers) model = none →
      ∀ s, config.servers.find? (fun s => s.models.contains "*") = some s →
        get_server_for_model config (build_model_to_server config.servers) model
          = some s.id) ∧
    (mapLookup (build_model_to_server config.servers) model = none →
      config.servers.find? (fun s => s.models.contains "*") = none →
      get_server_for_model config (build_model_to_server config.servers) model
        = config.servers.head?.map (fun s => s.id)) ∧
    (get_server_for_model config (build_model_to_server config.servers) model = none
      ↔ config.servers = []) ∧
    get_server_for_model config (build_model_to_server config.servers) model
      = get_server_for_model config (build_model_to_server config.servers) model := by
  refine ⟨?_, ?_, ?_, ?_, rfl⟩
  · intro sid hs
    unfold get_server_for_model
    rw [hs]
  · intro hnone s hfind
    unfold get_server_for_model
    rw [hnone, hfind]
  · intro hnone hfind
    unfold get_server_for_model
    rw [hnone, hfind]
  · constructor
    · intro hres
      unfold get_server_for_model at hres
      cases hlook : mapLookup (build_model_to_server config.servers) model with
      | some sid => rw [hlook] at hres; exact absurd hres (by simp)
      | none =>
          rw [hlook] at hres
          cases hfind : config.servers.find? (fun s => s.models.contains "*") with
          | some s => rw [hfind] at hres; exact absurd hres (by simp)
          | none =>
              rw [hfind] at hres
              cases hsrv : config.servers with
              | nil => rfl
              | cons s rest => rw [hsrv] at hres; exact absurd hres (by simp)
    · intro hempty
      unfold get_server_for_model build_model_to_server
      rw [hempty]
      rfl

/-- Witness for C7 on a two-server configuration: the exact entry for
model m1 resolves to gpu-1 even though cpu-1 carries the wildcard. -/
theorem model_resolution_order_witness :
    mapLookup (build_model_to_server
        [{ id := "gpu-1", ws_endpoint := "ws://gpu1.internal:8081",
           attestation_endpoint := none, public_key := none,
           models := ["llama-70b", "qwen-72b"] },
         { id := "cpu-1", ws_endpoint := "ws://cpu1.internal:8081",
           attestation_endpoint := none, public_key := none,
           models := ["*"] }]) "llama-70b" = some "gpu-1" ∧
    get_server_for_model
      { servers :=
          [{ id := "gpu-1", ws_endpoint := "ws://gpu1.internal:8081",
             attestation_endpoint := none, public_key := none,
             models := ["llama-70b", "qwen-72b"] },
           { id := "cpu-1", ws_endpoint := "ws://cpu1.internal:8081",
             attestation_endpoint := none, public_key := none,
             models := ["*"] }] }
      (build_model_to_server
        [{ id := "gpu-1", ws_endpoint := "ws://gpu1.internal:8081",
           attestation_endpoint := none, public_key := none,
           models := ["llama-70b", "qwen-72b"] },
         { id := "cpu-1", ws_endpoint := "ws://cpu1.internal:8081",
           attestation_endpoint := none, public_key := none,
           models := ["*"] }]) "llama-70b" = some "gpu-1" :=
  ⟨by decide,
   (model_resolution_order
      { servers :=
          [{ id := "gpu-1", ws_endpoint := "ws://gpu1.internal:8081",
             attestation_endpoint := none, public_key := none,
             models := ["llama-70b", "qwen-72b"] },
           { id := "cpu-1", ws_endpoint := "ws://cpu1.internal:8081",
             attestation_endpoint := none, public_key := none,
             models := ["*"] }] }
      "llama-70b").1 "gpu-1" (by decide)⟩

/-- The exit points of the encrypted request/response exchange inside
Router::forward_request, once the connection entry has been obtained: a
send failure, the receive timeout, the stream ending, a received Close
frame, an unexpected frame type, a decryption failure, a response JSON
parse failure, or success. -/
inductive ExchangeOutcome
  | sendFail (e : String)
  | recvTimeout
  | recvClosed
  | closeFrame
  | otherFrame
  | decryptFail (e : String)
  | parseFail (e : String)
  | ok (response : InferenceResponse)
deriving DecidableEq

/-- The exchange stage of Router::forward_request: the returned result and
the connection pool it leaves behind.  Only the Close-frame arm touches
the pool (connections.remove); every other failure arm early-returns with
the `?` operator, leaving the entry in place. -/
def forward_request_exchange (connections : List String) (server_id : String)
    (outcome : ExchangeOutcome) :
    Except String InferenceResponse × List String :=
  match outcome with
  | .sendFail e => (.error e, connections)
  | .recvTimeout => (.error "Request timeout", connections)
  | .recvClosed => (.error "Connection closed", connections)
  | .closeFrame => (.error "Server closed connection", connections.erase server_id)
  | .otherFrame => (.error "Unexpected message type", connections)
  | .decryptFail e => (.error e, connections)
  | .parseFail e => (.error e, connections)
  | .ok r => (.ok r, connections)

/-- C4 counterexample: a send failure against an existing connection entry
propagates the error but leaves the entry in the pool, contradicting the
claim that every send or receive failure removes it. -/
theorem forward_request_pool_cex :
    (forward_request_exchange ["gpu-1"] "gpu-1"
        (ExchangeOutcome.sendFail "io error")).1 = Except.error "io error" ∧
    (forward_request_exchange ["gpu-1"] "gpu-1"
        (ExchangeOutcome.sendFail "io error")).2 = ["gpu-1"] ∧
    "gpu-1" ∈ (forward_request_exchange ["gpu-1"] "gpu-1"
        (ExchangeOutcome.sendFail "io error")).2 := by
  refine ⟨rfl, rfl, by decide⟩

/-- C4 (amended): during the request exchange only a received Close frame
removes the server's connection entry; every failure outcome (send error,
timeout, peer stream end, close, unexpected frame, decrypt or parse
failure) propagates an error to the caller with the pool otherwise
untouched. -/
theorem forward_request_pool_policy (connections : List String)
    (server_id : String) (outcome : ExchangeOutcome) :
    (forward_request_exchange connections server_id outcome).2
      = (if outcome = ExchangeOutcome.closeFrame
         then connections.erase server_id else connections) ∧
    ((∃ r, outcome = ExchangeOutcome.ok r) ↔
      ∃ r, (forward_request_exchange connections server_id outcome).1
        = Except.ok r) := by
  cases outcome <;> simp [forward_request_exchange]

/-- The mutable router state the claims touch: the connection pool and the
fetched-public-key cache (server id to hex key). -/
structure RouterState where
  connections : List String
  public_key_cache : List (String × String)

/-- Method Router::invalidate_public_key: drop the server's cache entry. -/
def invalidate_public_key (st : RouterState) (server_id : String) : RouterState :=
  { st with public_key_cache :=
      st.public_key_cache.filter (fun p => !(p.1 == server_id)) }

/-- Method Router::get_public_key.  A nonempty static hex key of 32 bytes
wins outright and touches neither cache nor network; undecodable static
hex is a hard error; a wrong-length static key falls through to the
cache; a cache miss uses the fetch outcome (the whole of
fetch_public_key, base64 decode and length check included, enters as the
`fetched` oracle) and caches the hex of what it got. -/
def get_public_key (sc : ModelServerConfig) (cache : List (String × String))
    (fetched : Except String (List Nat)) :
    Except String (List Nat) × List (String × String) :=
  let viaCache :=
    match mapLookup cache sc.id with
    | some key_hex =>
        match hexDecode key_hex with
        | none => (Except.error "Invalid cached public key", cache)
        | some key => (Except.ok key, cache)
    | none =>
        match fetched with
        | .error e => (Except.error e, cache)
        | .ok key => (Except.ok key, mapInsert cache sc.id (hexEncode key))
  match sc.public_key with
  | some key_hex =>
      if key_hex = "" then viaCache
      else
        match hexDecode key_hex with
        | none => (Except.error "Invalid hex public key in config", cache)
        | some key => if key.length = 32 then (Except.ok key, cache) else viaCache
  | none => viaCache

/-- Method Router::ensure_connection.  The two connect_to_server calls
(attestation fetch, WebSocket connect, Noise handshake, pool insert on
success) are the oracles c1 and c2, each returning its result together
with the state it leaves; the Nat of the result counts the connect calls
made. -/
def ensure_connection (config : RouterConfig) (m2s : List (String × String))
    (st : RouterState) (model_id : String)
    (c1 c2 : RouterState → Except String Unit × RouterState) :
    Except String String × RouterState × Nat :=
  match get_server_for_model config m2s model_id with
  | none => (.error ("No server configured for model: " ++ model_id), st, 0)
  | some server_id =>
    if server_id ∈ st.connections then (.ok server_id, st, 0)
    else
      match c1 st with
      | (.ok _, st1) => (.ok server_id, st1, 1)
      | (.error _, st1) =>
        let st2 := invalidate_public_key st1 server_id
        match c2 st2 with
        | (.ok _, st3) => (.ok server_id, st3, 2)
        | (.error e2, st3) => (.error e2, st3, 2)

/-- Invalidation removes every cache entry of the server. -/
theorem mapLookup_invalidate (st : RouterState) (server_id : String) :
    mapLookup (invalidate_public_key st server_id).public_key_cache server_id
      = none := by
  unfold invalidate_public_key
  induction st.public_key_cache with
  | nil => rfl
  | cons p rest ih =>
      by_cases hp : p.1 = server_id
      · simp [mapLookup, List.filter, hp, ih]
      · simp only [List.filter]
        rw [show (!(p.1 == server_id)) = true by simp [hp]]
        simpa [mapLookup, hp] using ih

/-- C8: when no pool entry exists and the first connect fails, exactly one
retry happens after the server's cached key is invalidated; a second
failure is the error the caller sees; and a well-formed static configured
key makes get_public_key independent of the cache, so invalidation can
never affect it. -/
theorem ensure_connection_retry_policy
    (config : RouterConfig) (m2s : List (String × String)) (st : RouterState)
    (model_id server_id : String)
    (c1 c2 : RouterState → Except String Unit × RouterState)
    (e1 : String) (st1 : RouterState)
    (hres : get_server_for_model config m2s model_id = some server_id)
    (hnoconn : server_id ∉ st.connections)
    (hfail : c1 st = (.error e1, st1)) :
    (ensure_connection config m2s st model_id c1 c2).2.2 = 2 ∧
    mapLookup (invalidate_public_key st1 server_id).public_key_cache server_id
      = none ∧
    (∀ e2 st3, c2 (invalidate_public_key st1 server_id) = (.error e2, st3) →
      (ensure_connection config m2s st model_id c1 c2).1 = .error e2) ∧
    (∀ (sc : ModelServerConfig) (key_hex : String) (key : List Nat)
        (cache : List (String × String)) (fetched : Except String (List Nat)),
      sc.public_key = some key_hex → key_hex ≠ "" →
      hexDecode key_hex = some key → key.length = 32 →
      get_public_key sc cache fetched = (Except.ok key, cache)) := by
  refine ⟨?_, mapLookup_invalidate st1 server_id, ?_, ?_⟩
  · unfold ensure_connection
    rw [hres]
    simp only [hnoconn, if_neg, hfail]
    cases h2 : c2 (invalidate_public_key st1 server_id) with
    | mk r st3 => cases r <;> simp
  · intro e2 st3 h2
    unfold ensure_connection
    rw [hres]
    simp [hnoconn, hfail, h2]
  · intro sc key_hex key cache fetched hstatic hne hdec hlen
    unfold get_public_key
    rw [hstatic]
    simp [hne, hdec, hlen]

/-- Witness for C8: one server, empty pool and cache, both connects
refused; two attempts are made, the second error is returned, and the
static-key clause holds at a concrete 32-byte hex key. -/
theorem ensure_connection_retry_policy_witness :
    (ensure_connection { servers := [] }
        [("default", "srv-1")]
        { connections := [], public_key_cache := [] } "default"
        (fun s => (Except.error "first refused", s))
        (fun s => (Except.error "second refused", s))).2.2 = 2 ∧
    (ensure_connection { servers := [] }
        [("default", "srv-1")]
        { connections := [], public_key_cache := [] } "default"
        (fun s => (Except.error "first refused", s))
        (fun s => (Except.error "second refused", s))).1
      = Except.error "second refused" := by
  have h := ensure_connection_retry_policy { servers := [] }
    [("default", "srv-1")]
    { connections := [], public_key_cache := [] } "default" "srv-1"
    (fun s => (Except.error "first refused", s))
    (fun s => (Except.error "second refused", s))
    "first refused" { connections := [], public_key_cache := [] }
    (by decide) (by decide) rfl
  exact ⟨h.1, h.2.2.1 "second refused"
    (invalidate_public_key { connections := [], public_key_cache := [] } "srv-1") rfl⟩

/-! ## Dispatcher (handle_messages in src/infra/enclave/src/noise.rs)

One loop iteration on a decrypted request.  The records written to the
WebSocket are collected in order; the encrypted payload of each record is
kept as its plaintext JSON value, and the zero-length end-of-stream frame
is its own constructor.  Backend and downstream effects enter as oracle
values. -/

/-- The process operating mode of main.rs. -/
inductive OperatingMode
  | server
  | router
deriving DecidableEq

/-- One frame the dispatcher sends to the client. -/
inductive SentRecord
  | response (r : InferenceResponse)
  | chunk (c : StreamChunk)
  | endOfStream
deriving DecidableEq

/-- Server-mode backend effects of one request: the chat_completion
outcome and the chat_completion_stream outcome (the chunks its channel
yields). -/
structure InferenceOracle where
  completion : Except String String
  streaming : Except String (List StreamChunk)

/-- Router-mode downstream effects of one request: the forward_request
outcome and the forward_request_streaming outcome, each relayed chunk
itself Ok or a relay error. -/
structure RouterOracle where
  forward : Except String InferenceResponse
  forwardStreaming : Except String (List (Except String StreamChunk))

/-- Function process_inference_local. -/
def process_inference_local (completion : Except String String) : InferenceResponse :=
  match completion with
  | .ok content => { content := content, finish_reason := some "stop", error := none }
  | .error e => { content := "", finish_reason := none, error := some e }

/-- Function process_inference_routed. -/
def process_inference_routed (forward : Except String InferenceResponse) :
    InferenceResponse :=
  match forward with
  | .ok r => r
  | .error e => { content := "", finish_reason := none, error := some e }

/-- The router-mode streaming relay loop: forward chunks until a relay
error, which is sent as an error response and breaks the loop. -/
def relay_chunks : List (Except String StreamChunk) → List SentRecord
  | [] => []
  | .ok c :: rest => SentRecord.chunk c :: relay_chunks rest
  | .error e :: _ =>
      [SentRecord.response { content := "", finish_reason := none, error := some e }]

/-- The record sequence handle_messages sends for one decrypted request,
following the source's mode and stream branches. -/
def dispatch_records (mode : OperatingMode)
    (inference : Option InferenceOracle) (router : Option RouterOracle)
    (request : InferenceRequest) : List SentRecord :=
  match mode with
  | .server =>
    match inference with
    | some inf =>
      if request.stream then
        match inf.streaming with
        | .ok chunks => chunks.map SentRecord.chunk ++ [SentRecord.endOfStream]
        | .error e =>
            [SentRecord.response { content := "", finish_reason := none, error := some e },
             SentRecord.endOfStream]
      else
        [SentRecord.response (process_inference_local inf.completion)]
    | none =>
        [SentRecord.response
           { content := "", finish_reason := none,
             error := some "Inference client not configured" },
         SentRecord.endOfStream]
  | .router =>
    match router with
    | some rt =>
      if request.stream then
        match rt.forwardStreaming with
        | .ok chunkResults => relay_chunks chunkResults ++ [SentRecord.endOfStream]
        | .error e =>
            [SentRecord.response { content := "", finish_reason := none, error := some e },
             SentRecord.endOfStream]
      else
        [SentRecord.response (process_inference_routed rt.forward),
         SentRecord.endOfStream]
    | none =>
        [SentRecord.response
           { content := "", finish_reason := none, error := some "Router not configured" },
         SentRecord.endOfStream]

/-- The mode-dependent backend construction of main: server mode always
builds the inference client, router mode always builds the router. -/
def main_backends (mode : OperatingMode) (inf : InferenceOracle)
    (rt : RouterOracle) : Option InferenceOracle × Option RouterOracle :=
  match mode with
  | .server => (some inf, none)
  | .router => (none, some rt)

/-- C2: with the backends as main constructs them for each mode, a
non-streaming request is answered in server mode by exactly one encrypted
record and no terminator, and in router mode by exactly one encrypted
record followed by the zero-length terminator. -/
theorem dispatch_non_streaming_records (mode : OperatingMode)
    (inf : InferenceOracle) (rt : RouterOracle) (request : InferenceRequest)
    (hns : request.stream = false) :
    (mode = OperatingMode.server →
      dispatch_records mode (main_backends mode inf rt).1
          (main_backends mode inf rt).2 request
        = [SentRecord.response (process_inference_local inf.completion)]) ∧
    (mode = OperatingMode.router →
      dispatch_records mode (main_backends mode inf rt).1
          (main_backends mode inf rt).2 request
        = [SentRecord.response (process_inference_routed rt.forward),
           SentRecord.endOfStream]) := by
  refine ⟨fun hmode => ?_, fun hmode => ?_⟩ <;> subst hmode <;>
    simp [dispatch_records, main_backends, hns]

/-- Witness for C2 in server mode, with the router half at the same
inputs. -/
theorem dispatch_non_streaming_records_witness :
    dispatch_records OperatingMode.server
        (main_backends OperatingMode.server
          { completion := Except.ok "hello", streaming := Except.ok [] }
          { forward := Except.ok { content := "hi", finish_reason := none, error := none },
            forwardStreaming := Except.ok [] }).1
        (main_backends OperatingMode.server
          { completion := Except.ok "hello", streaming := Except.ok [] }
          { forward := Except.ok { content := "hi", finish_reason := none, error := none },
            forwardStreaming := Except.ok [] }).2
        { model := none, messages := [], stream := false,
          temperature := none, max_tokens := none }
      = [SentRecord.response (process_inference_local (Except.ok "hello"))] :=
  (dispatch_non_streaming_records OperatingMode.server
    { completion := Except.ok "hello", streaming := Except.ok [] }
    { forward := Except.ok { content := "hi", finish_reason := none, error := none },
      forwardStreaming := Except.ok [] }
    { model := none, messages := [], stream := false,
      temperature := none, max_tokens := none } rfl).1 rfl

/-- C9: in server mode with no inference client, a non-streaming request
is answered by one encrypted record carrying the "Inference client not
configured" error and then the zero-length terminator; the configured
server path at the same request sends no terminator. -/
theorem dispatch_unconfigured_server (request : InferenceRequest)
    (router : Option RouterOracle) (hns : request.stream = false) :
    dispatch_records OperatingMode.server none router request
      = [SentRecord.response
           { content := "", finish_reason := none,
             error := some "Inference client not configured" },
         SentRecord.endOfStream] ∧
    ∀ inf : InferenceOracle,
      dispatch_records OperatingMode.server (some inf) router request
        = [SentRecord.response (process_inference_local inf.completion)] := by
  constructor
  · simp [dispatch_records]
  · intro inf
    simp [dispatch_records, hns]

/-- Witness for C9 at a concrete non-streaming request. -/
theorem dispatch_unconfigured_server_witness :
    dispatch_records OperatingMode.server none none
        { model := none, messages := [], stream := false,
          temperature := none, max_tokens := none }
      = [SentRecord.response
           { content := "", finish_reason := none,
             error := some "Inference client not configured" },
         SentRecord.endOfStream] :=
  (dispatch_unconfigured_server
    { model := none, messages := [], stream := false,
      temperature := none, max_tokens := none } none rfl).1

/-! ## SSE ingestion (chat_completion_stream in src/infra/enclave/src/inference.rs)

The spawned task that turns the backend's SSE byte stream into the chunk
channel.  The byte stream enters as a list of read results (each already
decoded to a string, as the source's from_utf8_lossy does); the JSON
parse of an SSE data payload enters as an oracle
`String → Option VllmStreamChunk` standing for serde_json. -/

/-- The deserialized vLLM streaming delta. -/
structure VllmStreamDelta where
  content : Option String

/-- One choice of a vLLM streaming chunk. -/
structure VllmStreamChoice where
  delta : VllmStreamDelta
  finish_reason : Option String

/-- The deserialized vLLM streaming chunk. -/
structure VllmStreamChunk where
  choices : List VllmStreamChoice

/-- Split on newline characters, keeping empty segments. -/
def splitNl : List Char → List (List Char)
  | [] => [[]]
  | c :: rest =>
      if c = '\n' then [] :: splitNl rest
      else
        match splitNl rest with
        | [] => [[c]]
        | seg :: segs => (c :: seg) :: segs

/-- Drop one trailing carriage return, as Rust's str::lines does per line. -/
def stripCr (cs : List Char) : List Char :=
  if cs.getLast? = some (Char.ofNat 13) then cs.dropLast else cs

/-- Rust's str::lines: split on newline, drop a final empty segment, strip
a trailing carriage return from each line. -/
def rustLines (s : String) : List String :=
  let segs := splitNl s.data
  let segs :=
    match segs.getLast? with
    | some [] => segs.dropLast
    | _ => segs
  segs.map (fun cs => String.mk (stripCr cs))

/-- Strip the SSE data marker, Rust's line.strip of the six characters of
the data marker: some rest exactly when the line starts with it. -/
def stripData (line : String) : Option String :=
  match line.data with
  | 'd' :: 'a' :: 't' :: 'a' :: ':' :: ' ' :: rest => some (String.mk rest)
  | _ => none

/-- Index of the first blank-line separator (two consecutive newlines). -/
def findNN : List Char → Option Nat
  | '\n' :: '\n' :: _ => some 0
  | _ :: rest => (findNN rest).map (fun n => n + 1)
  | [] => none

/-- The per-event line loop: emitted chunks and whether the task returned
(on the DONE sentinel or an explicit finish_reason). -/
def process_event_lines (parse : String → Option VllmStreamChunk) :
    List String → List StreamChunk × Bool
  | [] => ([], false)
  | line :: rest =>
    match stripData line with
    | none => process_event_lines parse rest
    | some data =>
      if data = "[DONE]" then ([StreamChunk.finish "stop"], true)
      else
        match parse data with
        | none => process_event_lines parse rest
        | some chunk =>
          match chunk.choices.head? with
          | none => process_event_lines parse rest
          | some choice =>
            let deltas :=
              match choice.delta.content with
              | some c => if c = "" then [] else [StreamChunk.delta c]
              | none => []
            match choice.finish_reason with
            | some reason => (deltas ++ [StreamChunk.finish reason], true)
            | none =>
              let next := process_event_lines parse rest
              (deltas ++ next.1, next.2)

/-- The buffer loop: extract complete events at blank-line separators,
keeping the partial tail; the fuel is any bound on the iteration count
(each iteration consumes at least two buffer characters). -/
def process_buffer (parse : String → Option VllmStreamChunk) :
    Nat → List Char → List StreamChunk × List Char × Bool
  | 0, buf => ([], buf, false)
  | fuel+1, buf =>
    match findNN buf with
    | none => ([], buf, false)
    | some pos =>
      let event := buf.take pos
      let rest := buf.drop (pos + 2)
      let step := process_event_lines parse (rustLines (String.mk event))
      if step.2 then (step.1, rest, true)
      else
        let next := process_buffer parse fuel rest
        (step.1 ++ next.1, next.2.1, next.2.2)

/-- The outer read loop of the spawned task: append each read to the
buffer and process complete events; a read error emits one error chunk
and returns; stream exhaustion without an explicit finish emits the final
finish-stop chunk.  The Bool records whether the task returned from
inside the loop. -/
def process_sse (parse : String → Option VllmStreamChunk) :
    List (Except String String) → List Char → List StreamChunk × Bool
  | [], _ => ([StreamChunk.finish "stop"], false)
  | .error e :: _, _ => ([StreamChunk.error e], true)
  | .ok s :: rest, buf =>
    let buf1 := buf ++ s.data
    let step := process_buffer parse buf1.length buf1
    if step.2.2 then (step.1, true)
    else
      let next := process_sse parse rest step.2.1
      (step.1 ++ next.1, next.2)

/-- A terminal chunk is a finish or an error. -/
def isTerminal : StreamChunk → Bool
  | .delta _ => false
  | .finish _ => true
  | .error _ => true

/-- Validity of an emitted run with respect to the returned flag: with the
flag set, the run is deltas followed by exactly one terminal chunk;
without it, the run is deltas only. -/
def GoodRun (cs : List StreamChunk) : Bool → Prop
  | true => ∃ pre last, cs = pre ++ [last] ∧
      (∀ c ∈ pre, isTerminal c = false) ∧ isTerminal last = true
  | false => ∀ c ∈ cs, isTerminal c = false

/-- Prepending deltas preserves run validity. -/
theorem goodRun_append (a b : List StreamChunk) (t : Bool)
    (ha : ∀ c ∈ a, isTerminal c = false) (hb : GoodRun b t) :
    GoodRun (a ++ b) t := by
  cases t with
  | false =>
      intro c hc
      rcases List.mem_append.1 hc with h | h
      · exact ha c h
      · exact hb c h
  | true =>
      obtain ⟨pre, last, rfl, hpre, hlast⟩ := hb
      refine ⟨a ++ pre, last, by simp, ?_, hlast⟩
      intro c hc
      rcases List.mem_append.1 hc with h | h
      · exact ha c h
      · exact hpre c h

/-- The deltas a choice contributes are never terminal. -/
theorem deltas_nonterminal (o : Option String) :
    ∀ c ∈ (match o with
           | some s => if s = "" then ([] : List StreamChunk)
                       else [StreamChunk.delta s]
           | none => []), isTerminal c = false := by
  cases o with
  | none => simp
  | some s =>
      by_cases hs : s = "" <;> simp [hs, isTerminal]

/-- The per-event line loop emits a valid run. -/
theorem process_event_lines_good (parse : String → Option VllmStreamChunk)
    (ls : List String) :
    GoodRun (process_event_lines parse ls).1 (process_event_lines parse ls).2 := by
  induction ls with
  | nil =>
      intro c hc
      simp [process_event_lines] at hc
  | cons line rest ih =>
      cases hsd : stripData line with
      | none => simpa only [process_event_lines, hsd] using ih
      | some data =>
          by_cases hdone : data = "[DONE]"
          · simp only [process_event_lines, hsd]
            rw [if_pos hdone]
            exact ⟨[], StreamChunk.finish "stop", rfl, by simp, rfl⟩
          · cases hp : parse data with
            | none =>
                simp only [process_event_lines, hsd]
                rw [if_neg hdone]
                simpa only [hp] using ih
            | some chunk =>
                cases hch : chunk.choices.head? with
                | none =>
                    simp only [process_event_lines, hsd]
                    rw [if_neg hdone]
                    simpa only [hp, hch] using ih
                | some choice =>
                    cases hfr : choice.finish_reason with
                    | some reason =>
                        simp only [process_event_lines, hsd]
                        rw [if_neg hdone]
                        simp only [hp, hch, hfr]
                        exact ⟨_, StreamChunk.finish reason, rfl,
                          deltas_nonterminal choice.delta.content, rfl⟩
                    | none =>
                        simp only [process_event_lines, hsd]
                        rw [if_neg hdone]
                        simp only [hp, hch, hfr]
                        exact goodRun_append _ _ _
                          (deltas_nonterminal choice.delta.content) ih

/-- The buffer loop emits a valid run. -/
theorem process_buffer_good (parse : String → Option VllmStreamChunk) :
    ∀ (fuel : Nat) (buf : List Char),
      GoodRun (process_buffer parse fuel buf).1
        (process_buffer parse fuel buf).2.2 := by
  intro fuel
  induction fuel with
  | zero =>
      intro buf c hc
      simp [process_buffer] at hc
  | succ fuel ih =>
      intro buf
      cases hnn : findNN buf with
      | none =>
          simp only [process_buffer, hnn]
          intro c hc
          simp at hc
      | some pos =>
          have hstep := process_event_lines_good parse
            (rustLines (String.mk (buf.take pos)))
          cases ht : (process_event_lines parse
              (rustLines (String.mk (buf.take pos)))).2 with
          | true =>
              rw [ht] at hstep
              simp only [process_buffer, hnn, ht, if_true]
              exact hstep
          | false =>
              rw [ht] at hstep
              simp only [process_buffer, hnn, ht, if_false]
              exact goodRun_append _ _ _ hstep (ih _)

/-- The outer read loop always ends its run with exactly one terminal
chunk, and when it falls off the end of the stream the terminal chunk is
the final finish-stop. -/
theorem process_sse_spec (parse : String → Option VllmStreamChunk) :
    ∀ (items : List (Except String String)) (buf : List Char),
      (∃ pre last, (process_sse parse items buf).1 = pre ++ [last] ∧
        (∀ c ∈ pre, isTerminal c = false) ∧ isTerminal last = true) ∧
      ((process_sse parse items buf).2 = false →
        ∃ pre, (process_sse parse items buf).1
            = pre ++ [StreamChunk.finish "stop"] ∧
          ∀ c ∈ pre, isTerminal c = false) := by
  intro items
  induction items with
  | nil =>
      intro buf
      exact ⟨⟨[], StreamChunk.finish "stop", rfl, by simp, rfl⟩,
        fun _ => ⟨[], rfl, by simp⟩⟩
  | cons item rest ih =>
      intro buf
      cases item with
      | error e =>
          refine ⟨⟨[], StreamChunk.error e, rfl, by simp, rfl⟩, fun hfalse => ?_⟩
          simp [process_sse] at hfalse
      | ok s =>
          have hbg := process_buffer_good parse (buf ++ s.data).length (buf ++ s.data)
          cases hflag : (process_buffer parse (buf ++ s.data).length
              (buf ++ s.data)).2.2 with
          | true =>
              rw [hflag] at hbg
              obtain ⟨pre, last, heq, hpre, hlast⟩ := hbg
              constructor
              · refine ⟨pre, last, ?_, hpre, hlast⟩
                simp only [process_sse, hflag, if_true]
                exact heq
              · intro hfalse
                simp only [process_sse, hflag, if_true] at hfalse
                exact absurd hfalse (by simp)
          | false =>
              rw [hflag] at hbg
              obtain ⟨hA, hB⟩ := ih (process_buffer parse (buf ++ s.data).length
                (buf ++ s.data)).2.1
              constructor
              · obtain ⟨pre, last, heq, hpre, hlast⟩ := hA
                refine ⟨(process_buffer parse (buf ++ s.data).length
                    (buf ++ s.data)).1 ++ pre, last, ?_, ?_, hlast⟩
                · simp only [process_sse, hflag, Bool.false_eq_true, if_false]
                  rw [heq, List.append_assoc]
                · intro c hc
                  rcases List.mem_append.1 hc with h | h
                  · exact hbg c h
                  · exact hpre c h
              · intro hfalse
                simp only [process_sse, hflag, Bool.false_eq_true, if_false] at hfalse
                obtain ⟨pre, heq, hpre⟩ := hB hfalse
                refine ⟨(process_buffer parse (buf ++ s.data).length
                    (buf ++ s.data)).1 ++ pre, ?_, ?_⟩
                · simp only [process_sse, hflag, Bool.false_eq_true, if_false]
                  rw [heq, List.append_assoc]
                · intro c hc
                  rcases List.mem_append.1 hc with h | h
                  · exact hbg c h
                  · exact hpre c h

/-- C10: every chunk sequence the SSE ingestion task emits is deltas
followed by exactly one terminal chunk (a finish or an error), and when
the backend stream ends without the DONE sentinel and without an explicit
finish_reason — the read loop falls off the end — that terminal chunk is
a finish with reason stop. -/
theorem sse_stream_terminal (parse : String → Option VllmStreamChunk)
    (items : List (Except String String)) :
    (∃ pre last, (process_sse parse items []).1 = pre ++ [last] ∧
      (∀ c ∈ pre, isTerminal c = false) ∧ isTerminal last = true) ∧
    ((process_sse parse items []).2 = false →
      ∃ pre, (process_sse parse items []).1
          = pre ++ [StreamChunk.finish "stop"] ∧
        ∀ c ∈ pre, isTerminal c = false) :=
  process_sse_spec parse items []

/-- Witness for C10 on the empty stream: the loop falls off the end and
the whole run is the single finish-stop chunk. -/
theorem sse_stream_terminal_witness :
    (process_sse (fun _ => none) ([] : List (Except String String)) []).2 = false ∧
    ∃ pre, (process_sse (fun _ => none) ([] : List (Except String String)) []).1
        = pre ++ [StreamChunk.finish "stop"] ∧
      ∀ c ∈ pre, isTerminal c = false :=
  ⟨rfl, (sse_stream_terminal (fun _ => none) []).2 rfl⟩

end Onera
